import Mathlib

/-
Verification development for the AI-Scribe application (src/app.py).

The core pure logic of the program is embedded shallowly:
  * `poll_transcript`  (app.py lines 38-49)  — the polling state machine,
    simulated against a finite list of service responses;
  * `format_utterances` (lines 51-59) — diarization-record normalization;
  * `generate_note`    (lines 61-161) — prompt construction and the
    candidate-model fallback cascade, with the external generation service
    abstracted as oracles (`probe` for `count_tokens`, `gen` for
    `generate_content`);
  * `fallback_note`    (lines 163-216) — the deterministic template fallback;
  * `beautify_note`    (lines 218-235) — the per-line markdown transform;
  * `pipeline_note`    (lines 308-341) — the note-selection slice of `main`
    for a fresh session, after a successful poll.

Python strings are modelled as Lean `String`; `str.strip` is modelled with
`Char.isWhitespace` (space, tab, CR, LF — the whitespace actually occurring
in this program's data); `str.splitlines` is modelled for newline-`'\n'`
texts, which covers every string the program builds.  Python floats are
modelled as rationals `ℚ`, so millisecond division is exact division.
-/

set_option maxRecDepth 8192

/-- Python `str.strip` on a list of characters: drop whitespace from the
front, then from the back. -/
def pstripL (l : List Char) : List Char :=
  ((l.dropWhile Char.isWhitespace).reverse.dropWhile Char.isWhitespace).reverse

/-- Python `str.strip`. -/
def pstrip (s : String) : String := ⟨pstripL s.data⟩

/-- Split a character list at each newline; the result always has at least
one (possibly empty) chunk, as `String.splitOn` would produce. -/
def splitNlL : List Char → List (List Char)
  | [] => [[]]
  | c :: rest =>
    if c = '\n' then [] :: splitNlL rest
    else
      match splitNlL rest with
      | [] => [[c]]
      | h :: t => (c :: h) :: t

/-- Python `str.splitlines` for `'\n'`-separated text: like `splitNlL` but a
trailing empty chunk (from a trailing newline, or from the empty string) is
dropped. -/
def splitlinesL (l : List Char) : List (List Char) :=
  let p := splitNlL l
  if p.getLast? = some [] then p.dropLast else p

/-- Python `str.splitlines` on strings. -/
def splitlines (s : String) : List String := (splitlinesL s.data).map String.mk

/-- Python `sep.join(parts)`. -/
def joinSep (sep : String) : List String → String
  | [] => ""
  | [x] => x
  | x :: y :: rest => x ++ sep ++ joinSep sep (y :: rest)

/-- Python truthiness of an optional string (`None` and `""` are falsy). -/
def pyTruthy : Option String → Bool
  | none => false
  | some s => s != ""

/-- Python falsiness of an optional string. -/
def pyFalsy (o : Option String) : Bool := !(pyTruthy o)

/-- Raw value of a JSON timestamp field: absent, a number (Python int/float,
modelled as `ℚ`), or some non-numeric value. -/
def MsField : Type := Option (ℚ ⊕ String)

instance : DecidableEq MsField := by
  unfold MsField; infer_instance

/-- Raw diarization record from the transcription service; every field may
be missing (`u.get(...)` in the source). -/
structure RawRecord where
  speaker : Option String
  text : Option String
  start : MsField
  end_ : MsField
deriving DecidableEq

/-- Canonical utterance produced by `format_utterances` (app.py line 58). -/
structure Utterance where
  speaker : String
  text : String
  start : ℚ
  end_ : ℚ
deriving DecidableEq

/-- Timestamp conversion used at app.py lines 56-57:
`u.get("start", 0) / 1000.0 if isinstance(u.get("start"), (int, float)) else 0`. -/
def msToSeconds : MsField → ℚ
  | some (Sum.inl v) => v / 1000
  | _ => 0

/-- Embedding of `format_utterances` (app.py lines 51-59).  The argument is
optional because the caller passes `utt or []` semantics: `none` behaves
like the empty list. -/
def format_utterances (utt : Option (List RawRecord)) : List Utterance :=
  (utt.getD []).map fun u =>
    { speaker := u.speaker.getD "Unknown"
      text := u.text.getD ""
      start := msToSeconds u.start
      end_ := msToSeconds u.end_ }

/-- Embedding of the utterance-synthesis step of `main` (app.py lines
355-357): when the job payload has no (truthy) `utterances` but has truthy
flat `text`, a single synthetic record is built. -/
def synth_utterances (utter : Option (List RawRecord)) (text : Option String) :
    Option (List RawRecord) :=
  if (utter = none ∨ utter = some []) ∧ pyTruthy text then
    some [{ speaker := some "Speaker", text := text, start := none, end_ := none }]
  else utter

/-- Transcription-service polling response body (the fields of
`GET /transcript/{id}` that the program reads). -/
structure TResponse where
  status : String
  text : Option String
  error : Option String
  utterances : Option (List RawRecord)
deriving DecidableEq

/-- Terminal outcome of `poll_transcript`: a returned completed body, or the
`RuntimeError(body.get("error"))` raise. -/
inductive PollOutcome where
  | completed (body : TResponse)
  | failed (detail : Option String)
deriving DecidableEq

/-- Embedding of `poll_transcript` (app.py lines 38-49), simulated against a
finite list of successive service responses.  The result carries the number
of status checks performed; `none` means the simulated responses ran out
while the loop would still be waiting. -/
def pollSim : List TResponse → Option (PollOutcome × Nat)
  | [] => none
  | r :: rest =>
    if r.status = "completed" then some (PollOutcome.completed r, 1)
    else if r.status = "error" then some (PollOutcome.failed r.error, 1)
    else
      match pollSim rest with
      | none => none
      | some (o, n) => some (o, n + 1)

/-- Text of the SOAP prompt (app.py lines 63-98) up to and including
`"[TRANSCRIPT]\n"`.  The source builds one adjacent-literal string and then
replaces the single trailing placeholder with the transcript, so the built
prompt is this text, then the transcript, then `"\n\n"`. -/
def soapPromptPre : String :=
  "You are a medical documentation assistant. \n" ++
  "Your task is to convert the provided clinical transcript into a concise, accurate, and well-structured SOAP note.\n" ++
  "Only use information explicitly stated in the transcript. \n" ++
  "Do NOT add, infer, or assume any data not mentioned.\n" ++
  "If a section has no data in the transcript, write: “Not mentioned.”\n\n" ++
  "Format exactly as follows:\n\n" ++
  "SOAP NOTE\n" ++
  "Patient Name:\n" ++
  "DOB:\n" ++
  "Clinician:\n" ++
  "Date:\n" ++
  "Setting: (telemedicine / in-person) — based on transcript\n\n" ++
  "S – Subjective\n" ++
  "• Chief Complaint:\n" ++
  "• History of Present Illness:\n" ++
  "• Review of Systems (only items mentioned):\n" ++
  "• Past Medical History:\n" ++
  "• Medications:\n" ++
  "• Allergies:\n" ++
  "• Family History:\n" ++
  "• Social History:\n\n" ++
  "O – Objective\n" ++
  "• Exam findings from transcript\n" ++
  "(If telehealth and no exam provided, write: “No physical exam performed; assessment based on verbal report.”)\n" ++
  "• Vitals if mentioned\n\n" ++
  "A – Assessment\n" ++
  "• List all clinician-stated assessments or inferred concerns explicitly stated in the transcript\n" ++
  "• Do NOT generate diagnoses that were not discussed\n\n" ++
  "P – Plan\n" ++
  "• Diagnostics ordered or recommended\n" ++
  "• Treatments/medications advised\n" ++
  "• Work restrictions\n" ++
  "• Safety netting / follow-up advice\n\n" ++
  "Now generate the SOAP note based on the following transcript:\n\n" ++
  "[TRANSCRIPT]\n"

/-- Text of the H&P prompt (app.py lines 101-135) up to and including
`"[TRANSCRIPT]\n"`, the placeholder replacement embedded as for
`soapPromptPre`. -/
def hpPromptPre : String :=
  "You are a medical documentation assistant. \n" ++
  "Convert the provided transcript into a structured History & Physical (H&P) note.\n" ++
  "Use only information explicitly stated. Do NOT guess or add details.\n" ++
  "If a section is missing information, mark it as “Not mentioned.”\n\n" ++
  "Format exactly as follows:\n\n" ++
  "HISTORY & PHYSICAL (H&P)\n\n" ++
  "Patient Name:\n" ++
  "DOB:\n" ++
  "Clinician:\n" ++
  "Date:\n" ++
  "Setting:\n\n" ++
  "HISTORY\n" ++
  "Chief Complaint:\n" ++
  "History of Present Illness:\n" ++
  "Past Medical History:\n" ++
  "Past Surgical History:\n" ++
  "Medications:\n" ++
  "Allergies:\n" ++
  "Family History:\n" ++
  "Social History:\n" ++
  "Review of Systems:\n" ++
  "(Only list items explicitly found in the transcript.)\n\n" ++
  "PHYSICAL EXAM\n" ++
  "• If no exam data exists, write: “Not performed in transcript.”\n\n" ++
  "ASSESSMENT\n" ++
  "• Summarize the clinician’s diagnostic thinking exactly as discussed.\n" ++
  "• Do NOT generate new differentials unless mentioned.\n\n" ++
  "PLAN\n" ++
  "• Document investigations ordered or recommended\n" ++
  "• Treatment recommendations\n" ++
  "• Follow-up instructions\n" ++
  "• Any disposition (e.g., clinic referral, ER recommendation)\n\n" ++
  "Now generate the H&P note using the transcript below:\n\n" ++
  "[TRANSCRIPT]\n"

/-- Prompt construction of `generate_note` (app.py lines 62-136): dispatch
on `fmt == "SOAP"`, every other format tag rendering the H&P template. -/
def buildPrompt (transcript_text fmt : String) : String :=
  if fmt = "SOAP" then soapPromptPre ++ transcript_text ++ "\n\n"
  else hpPromptPre ++ transcript_text ++ "\n\n"

/-- Fixed model priority list (app.py lines 140-147). -/
def base_names : List String :=
  ["gemini-2.5-flash", "gemini-2.0-flash", "gemini-2.0-flash-lite",
   "gemini-1.5-flash-8b", "gemini-1.5-pro", "gemini-1.0-pro"]

/-- Candidate list construction (app.py lines 148-151): for each base name,
the bare name then the `"models/"`-qualified name. -/
def candidates : List String :=
  base_names.foldl (fun acc n => acc ++ [n, "models/" ++ n]) []

/-- Result of one candidate attempt (app.py lines 153-160): instantiate the
model, run the `count_tokens("")` probe, then generate.  An exception at
either step yields `none`; success yields the final returned text, i.e.
`r.text or ""`. -/
def attemptOf (probe : String → Bool) (gen : String → String → Option String)
    (prompt name : String) : Option String :=
  if probe name then gen name prompt else none

/-- Candidate cascade of `generate_note` (app.py lines 152-161): try each
candidate in order, returning the first success together with the name that
succeeded. -/
def tryCandidates (attempt : String → Option String) : List String → Option (String × String)
  | [] => none
  | name :: rest =>
    match attempt name with
    | some txt => some (name, txt)
    | none => tryCandidates attempt rest

/-- Candidates actually invoked by the cascade: every candidate up to and
including the first success (the loop body runs for each of these and for no
later candidate). -/
def invokedCandidates (attempt : String → Option String) : List String → List String
  | [] => []
  | name :: rest =>
    match attempt name with
    | some _ => [name]
    | none => name :: invokedCandidates attempt rest

/-- Observable result of `generate_note`: the returned note text and the
model identifier recorded in `st.session_state["note_model"]` (set only on
success). -/
structure GenResult where
  note : String
  model : Option String
deriving DecidableEq

/-- Embedding of `generate_note` (app.py lines 61-161).  `gemini_key` models
the `GEMINI_KEY` configuration; `probe`/`gen` abstract the external
generation service per candidate name.  An untruthy key returns `""` before
any candidate is tried; exhaustion of all candidates also returns `""`. -/
def generate_note (gemini_key : Option String) (probe : String → Bool)
    (gen : String → String → Option String) (transcript_text fmt : String) : GenResult :=
  let prompt := buildPrompt transcript_text fmt
  if pyTruthy gemini_key then
    match tryCandidates (attemptOf probe gen prompt) candidates with
    | some (name, txt) => { note := txt, model := some name }
    | none => { note := "", model := none }
  else { note := "", model := none }

/-- Embedding of `fallback_note` (app.py lines 163-216).  Python's
adjacent string literals merge into single literals around the one `+`
expression, so each branch is literal-prefix ++ conditional ++ literal-suffix
with the per-source-line text kept verbatim. -/
def fallback_note (transcript_text fmt : String) : String :=
  let t := pstrip transcript_text
  if fmt = "SOAP" then
    "SOAP NOTE\n" ++
    "Patient Name: Not mentioned.\n" ++
    "DOB: Not mentioned.\n" ++
    "Clinician: Not mentioned.\n" ++
    "Date: Not mentioned.\n" ++
    "Setting: Not mentioned.\n\n" ++
    "S – Subjective\n" ++
    "• Chief Complaint: Not mentioned.\n" ++
    "• History of Present Illness: " ++ (if t ≠ "" then t else "Not mentioned.") ++ "\n" ++
    "• Review of Systems (only items mentioned): Not mentioned.\n" ++
    "• Past Medical History: Not mentioned.\n" ++
    "• Medications: Not mentioned.\n" ++
    "• Allergies: Not mentioned.\n" ++
    "• Family History: Not mentioned.\n" ++
    "• Social History: Not mentioned.\n\n" ++
    "O – Objective\n" ++
    "• Exam findings from transcript\n" ++
    "No physical exam performed; assessment based on verbal report.\n" ++
    "• Vitals if mentioned\n" ++
    "Not mentioned.\n\n" ++
    "A – Assessment\n" ++
    "• Not mentioned.\n\n" ++
    "P – Plan\n" ++
    "• Not mentioned.\n"
  else
    "HISTORY & PHYSICAL (H&P)\n\n" ++
    "Patient Name: Not mentioned.\n" ++
    "DOB: Not mentioned.\n" ++
    "Clinician: Not mentioned.\n" ++
    "Date: Not mentioned.\n" ++
    "Setting: Not mentioned.\n\n" ++
    "HISTORY\n" ++
    "Chief Complaint: Not mentioned.\n" ++
    "History of Present Illness: " ++ (if t ≠ "" then t else "Not mentioned.") ++ "\n" ++
    "Past Medical History: Not mentioned.\n" ++
    "Past Surgical History: Not mentioned.\n" ++
    "Medications: Not mentioned.\n" ++
    "Allergies: Not mentioned.\n" ++
    "Family History: Not mentioned.\n" ++
    "Social History: Not mentioned.\n" ++
    "Review of Systems: Not mentioned.\n\n" ++
    "PHYSICAL EXAM\n" ++
    "• Not performed in transcript.\n\n" ++
    "ASSESSMENT\n" ++
    "• Not mentioned.\n\n" ++
    "PLAN\n" ++
    "• Not mentioned.\n"

/-- Fixed text of the SOAP fallback template up to the
History-of-Present-Illness value (one string, matching the merged literals of
app.py lines 166-175). -/
def soapFallbackPre : String :=
  "SOAP NOTE\nPatient Name: Not mentioned.\nDOB: Not mentioned.\nClinician: Not mentioned.\nDate: Not mentioned.\nSetting: Not mentioned.\n\nS – Subjective\n• Chief Complaint: Not mentioned.\n• History of Present Illness: "

/-- Fixed text of the SOAP fallback template after the
History-of-Present-Illness value (app.py lines 175-190). -/
def soapFallbackPost : String :=
  "\n• Review of Systems (only items mentioned): Not mentioned.\n• Past Medical History: Not mentioned.\n• Medications: Not mentioned.\n• Allergies: Not mentioned.\n• Family History: Not mentioned.\n• Social History: Not mentioned.\n\nO – Objective\n• Exam findings from transcript\nNo physical exam performed; assessment based on verbal report.\n• Vitals if mentioned\nNot mentioned.\n\nA – Assessment\n• Not mentioned.\n\nP – Plan\n• Not mentioned.\n"

/-- Fixed text of the H&P fallback template up to the
History-of-Present-Illness value (app.py lines 193-202). -/
def hpFallbackPre : String :=
  "HISTORY & PHYSICAL (H&P)\n\nPatient Name: Not mentioned.\nDOB: Not mentioned.\nClinician: Not mentioned.\nDate: Not mentioned.\nSetting: Not mentioned.\n\nHISTORY\nChief Complaint: Not mentioned.\nHistory of Present Illness: "

/-- Fixed text of the H&P fallback template after the
History-of-Present-Illness value (app.py lines 202-215). -/
def hpFallbackPost : String :=
  "\nPast Medical History: Not mentioned.\nPast Surgical History: Not mentioned.\nMedications: Not mentioned.\nAllergies: Not mentioned.\nFamily History: Not mentioned.\nSocial History: Not mentioned.\nReview of Systems: Not mentioned.\n\nPHYSICAL EXAM\n• Not performed in transcript.\n\nASSESSMENT\n• Not mentioned.\n\nPLAN\n• Not mentioned.\n"

/-- Title test of `beautify_note` (app.py line 226). -/
def isTitleLine (s : String) : Bool :=
  s == "SOAP NOTE" || s == "HISTORY & PHYSICAL (H&P)"

/-- Known section labels of `beautify_note` (app.py lines 228-229). -/
def sectionLabels : List String :=
  ["S – Subjective", "O – Objective", "A – Assessment", "P – Plan",
   "HISTORY", "PHYSICAL EXAM", "ASSESSMENT", "PLAN"]

/-- Section test of `beautify_note`. -/
def isSectionLine (s : String) : Bool := sectionLabels.contains s

/-- Python `s.endswith(":")`. -/
def endsColon (s : String) : Bool := s.data.getLast? == some ':'

/-- Python `s.startswith("•")`. -/
def startsBullet (s : String) : Bool := s.data.head? == some '•'

/-- Loop body of `beautify_note` (app.py lines 221-234): the value appended
to `out` for one raw input line. -/
def beautifyLine (raw : String) : String :=
  let s := pstrip raw
  if s = "" then ""
  else if isTitleLine s then "# " ++ s
  else if isSectionLine s then "## " ++ s
  else if endsColon s && !startsBullet s then "**" ++ s ++ "**"
  else s

/-- Embedding of `beautify_note` (app.py lines 218-235): split into lines,
transform each, join with `"\n\n"`. -/
def beautify_note (note_text : String) : String :=
  joinSep "\n\n" ((splitlines note_text).map beautifyLine)

/-- Embedding of the note-selection slice of `main` (app.py lines 308-341)
for a fresh session in which the run button was pressed and
`poll_transcript` returned `result`.  Python-truthiness of the session's
`note_text` (`None` and `""` both falsy) is modelled with `pyTruthy`; the
returned value is the final session `note_text` (`none` when the pipeline
set no note). -/
def pipeline_note (gemini_key : Option String) (probe : String → Bool)
    (gen : String → String → Option String) (result : TResponse) (fmt : String) :
    Option String :=
  let full_text := result.text.getD ""
  let note0 : Option String :=
    if pyTruthy gemini_key ∧ full_text ≠ "" then
      some (generate_note gemini_key probe gen full_text fmt).note
    else none
  let note1 : Option String :=
    if pyTruthy gemini_key ∧ pyFalsy note0 then
      if full_text ≠ "" then
        let nt := (generate_note gemini_key probe gen full_text fmt).note
        some (if nt ≠ "" then nt else fallback_note full_text fmt)
      else note0
    else note0
  if pyFalsy note1 then
    if full_text ≠ "" then some (fallback_note full_text fmt) else note1
  else note1

/-- Two strings with the same character data are equal. -/
theorem string_data_eq {a b : String} (h : a.data = b.data) : a = b := by
  cases a; cases b; exact congrArg String.mk h

/-- Head of a `dropWhile` result never satisfies the dropped predicate. -/
theorem head?_dropWhile_false {α : Type} (p : α → Bool) :
    ∀ (l : List α) (c : α), (l.dropWhile p).head? = some c → p c = false := by
  intro l
  induction l with
  | nil => intro c h; simp [List.dropWhile] at h
  | cons a as ih =>
    intro c h
    rw [List.dropWhile_cons] at h
    by_cases hp : p a
    · rw [if_pos hp] at h; exact ih c h
    · rw [if_neg hp] at h
      simp at h
      rw [← h]
      exact Bool.eq_false_iff.mpr hp

/-- Lists whose head does not satisfy `p` are fixed by `dropWhile p`. -/
theorem dropWhile_eq_self_of_head {α : Type} (p : α → Bool) (l : List α)
    (h : ∀ c, l.head? = some c → p c = false) : l.dropWhile p = l := by
  cases l with
  | nil => rfl
  | cons a as =>
    rw [List.dropWhile_cons, if_neg]
    simp [h a rfl]

/-- Lists with non-whitespace ends are fixed by `pstripL`. -/
theorem pstripL_eq_self (l : List Char)
    (h1 : ∀ c, l.head? = some c → c.isWhitespace = false)
    (h2 : ∀ c, l.getLast? = some c → c.isWhitespace = false) : pstripL l = l := by
  unfold pstripL
  rw [dropWhile_eq_self_of_head _ l h1]
  rw [dropWhile_eq_self_of_head _ l.reverse (by intro c hc; rw [List.head?_reverse] at hc; exact h2 c hc)]
  exact List.reverse_reverse l

/-- Head of a stripped list is not whitespace. -/
theorem pstripL_head_not_ws (l : List Char) (c : Char)
    (h : (pstripL l).head? = some c) : c.isWhitespace = false := by
  unfold pstripL at h
  rw [List.head?_reverse] at h
  have hsuf := List.dropWhile_suffix (l := (l.dropWhile Char.isWhitespace).reverse)
    (p := Char.isWhitespace)
  obtain ⟨pre, hpre⟩ := hsuf
  have hne : ((l.dropWhile Char.isWhitespace).reverse.dropWhile Char.isWhitespace) ≠ [] := by
    intro h0; rw [h0] at h; simp at h
  have : (l.dropWhile Char.isWhitespace).reverse.getLast? = some c := by
    rw [← hpre, List.getLast?_append_of_ne_nil _ hne]; exact h
  rw [List.getLast?_reverse] at this
  exact head?_dropWhile_false _ _ _ this

/-- Last element of a stripped list is not whitespace. -/
theorem pstripL_getLast_not_ws (l : List Char) (c : Char)
    (h : (pstripL l).getLast? = some c) : c.isWhitespace = false := by
  unfold pstripL at h
  rw [List.getLast?_reverse] at h
  exact head?_dropWhile_false _ _ _ h

/-- The list strip is idempotent. -/
theorem pstripL_idem (l : List Char) : pstripL (pstripL l) = pstripL l :=
  pstripL_eq_self _ (pstripL_head_not_ws l) (pstripL_getLast_not_ws l)

/-- Stripping only removes characters. -/
theorem mem_of_mem_pstripL {a : Char} {l : List Char} (h : a ∈ pstripL l) : a ∈ l := by
  unfold pstripL at h
  rw [List.mem_reverse] at h
  have h2 := (List.dropWhile_sublist (l := (l.dropWhile Char.isWhitespace).reverse)
    (p := Char.isWhitespace)).mem h
  rw [List.mem_reverse] at h2
  exact (List.dropWhile_sublist _).mem h2

/-- Character data of `pstrip`. -/
theorem pstrip_data (s : String) : (pstrip s).data = pstripL s.data := rfl

/-- Strings with non-whitespace ends are fixed by `pstrip`. -/
theorem pstrip_eq_self (s : String)
    (h1 : ∀ c, s.data.head? = some c → c.isWhitespace = false)
    (h2 : ∀ c, s.data.getLast? = some c → c.isWhitespace = false) : pstrip s = s :=
  string_data_eq (by rw [pstrip_data]; exact pstripL_eq_self _ h1 h2)

/-- The string strip is idempotent. -/
theorem pstrip_idem (s : String) : pstrip (pstrip s) = pstrip s :=
  string_data_eq (by rw [pstrip_data, pstrip_data]; exact pstripL_idem s.data)

/-- Newline splitting always yields at least one chunk. -/
theorem splitNlL_ne_nil (l : List Char) : splitNlL l ≠ [] := by
  cases l with
  | nil => simp [splitNlL]
  | cons c rest =>
    rw [splitNlL]
    by_cases h : c = '\n'
    · simp [h]
    · rw [if_neg h]
      cases splitNlL rest <;> simp

/-- Chunks produced by newline splitting contain no newline. -/
theorem mem_splitNlL_no_nl : ∀ (l : List Char), ∀ m ∈ splitNlL l, '\n' ∉ m := by
  intro l
  induction l with
  | nil => intro m hm; simp [splitNlL] at hm; simp [hm]
  | cons c rest ih =>
    intro m hm
    rw [splitNlL] at hm
    by_cases h : c = '\n'
    · rw [if_pos h] at hm
      rcases List.mem_cons.mp hm with h0 | h0
      · simp [h0]
      · exact ih m h0
    · rw [if_neg h] at hm
      rcases he : splitNlL rest with _ | ⟨hd, tl⟩
      · exact absurd he (splitNlL_ne_nil rest)
      · rw [he] at hm
        rcases List.mem_cons.mp hm with h0 | h0
        · subst h0
          intro hmem
          rcases List.mem_cons.mp hmem with h1 | h1
          · exact h h1.symm
          · exact ih hd (by rw [he]; exact List.mem_cons_self hd tl) h1
        · exact ih m (by rw [he]; exact List.mem_cons_of_mem hd h0)

/-- Splitting a newline-free chunk yields just that chunk. -/
theorem splitNlL_no_nl : ∀ (l : List Char), '\n' ∉ l → splitNlL l = [l] := by
  intro l
  induction l with
  | nil => intro _; rfl
  | cons c rest ih =>
    intro h
    have hc : c ≠ '\n' := fun he => h (by rw [he]; exact List.mem_cons_self _ _)
    have hr : '\n' ∉ rest := fun he => h (List.mem_cons_of_mem _ he)
    rw [splitNlL, if_neg hc, ih hr]

/-- Splitting distributes over a newline following a newline-free chunk. -/
theorem splitNlL_append_nl : ∀ (a b : List Char), '\n' ∉ a →
    splitNlL (a ++ '\n' :: b) = a :: splitNlL b := by
  intro a
  induction a with
  | nil => intro b _; simp [splitNlL]
  | cons c rest ih =>
    intro b h
    have hc : c ≠ '\n' := fun he => h (by rw [he]; exact List.mem_cons_self _ _)
    have hr : '\n' ∉ rest := fun he => h (List.mem_cons_of_mem _ he)
    rw [List.cons_append, splitNlL, if_neg hc, ih b hr]

/-- Chunks of a split of a `"\n\n"`-join of newline-free strings are empty or
among the joined strings. -/
theorem mem_splitNl_joinSep : ∀ (ls : List String), (∀ x ∈ ls, '\n' ∉ x.data) →
    ∀ m ∈ splitNlL (joinSep "\n\n" ls).data, m = [] ∨ ∃ x ∈ ls, m = x.data := by
  intro ls
  induction ls with
  | nil =>
    intro _ m hm
    simp [joinSep, splitNlL] at hm
    exact Or.inl hm
  | cons x tl ih =>
    intro hfree m hm
    cases tl with
    | nil =>
      rw [joinSep, splitNlL_no_nl _ (hfree x (List.mem_cons_self _ _))] at hm
      simp at hm
      exact Or.inr ⟨x, List.mem_cons_self _ _, hm⟩
    | cons y rest =>
      rw [joinSep] at hm
      have hdata : (x ++ "\n\n" ++ joinSep "\n\n" (y :: rest)).data
          = x.data ++ '\n' :: '\n' :: (joinSep "\n\n" (y :: rest)).data := by
        simp [List.append_assoc]
      rw [hdata, splitNlL_append_nl _ _ (hfree x (List.mem_cons_self _ _))] at hm
      rcases List.mem_cons.mp hm with h0 | h0
      · exact Or.inr ⟨x, List.mem_cons_self _ _, h0⟩
      · rw [show splitNlL ('\n' :: (joinSep "\n\n" (y :: rest)).data)
            = [] :: splitNlL (joinSep "\n\n" (y :: rest)).data from by rw [splitNlL]; simp] at h0
        rcases List.mem_cons.mp h0 with h1 | h1
        · exact Or.inl h1
        · rcases ih (fun z hz => hfree z (List.mem_cons_of_mem x hz)) m h1 with h2 | ⟨z, hz, h3⟩
          · exact Or.inl h2
          · exact Or.inr ⟨z, List.mem_cons_of_mem x hz, h3⟩

/-- Chunks of `splitlinesL` are chunks of `splitNlL`. -/
theorem mem_splitNlL_of_mem_splitlinesL {m : List Char} {l : List Char}
    (h : m ∈ splitlinesL l) : m ∈ splitNlL l := by
  unfold splitlinesL at h
  by_cases hc : (splitNlL l).getLast? = some []
  · rw [if_pos hc] at h; exact List.mem_of_mem_dropLast h
  · rwa [if_neg hc] at h

/-- Lines produced by `splitlines` contain no newline. -/
theorem mem_splitlines_no_nl {text x : String} (h : x ∈ splitlines text) :
    '\n' ∉ x.data := by
  unfold splitlines at h
  rcases List.mem_map.mp h with ⟨m, hm, rfl⟩
  exact mem_splitNlL_no_nl _ m (mem_splitNlL_of_mem_splitlinesL hm)

/-- Unfolded form of `beautifyLine`. -/
theorem beautifyLine_eq (raw : String) :
    beautifyLine raw =
      if pstrip raw = "" then ""
      else if isTitleLine (pstrip raw) then "# " ++ pstrip raw
      else if isSectionLine (pstrip raw) then "## " ++ pstrip raw
      else if endsColon (pstrip raw) && !startsBullet (pstrip raw) then
        "**" ++ pstrip raw ++ "**"
      else pstrip raw := rfl

/-- Strings whose first characters differ are different. -/
theorem ne_of_head {a b : String} {ca cb : Char} (ha : a.data.head? = some ca)
    (hb : b.data.head? = some cb) (hne : ca ≠ cb) : a ≠ b := by
  intro h
  rw [h, hb] at ha
  exact hne (Option.some.inj ha).symm

/-- First character of an emphasis-wrapped string. -/
theorem bold_head (x : String) : ("**" ++ x ++ "**").data.head? = some '*' := rfl

/-- Last character of an emphasis-wrapped string. -/
theorem bold_getLast (x : String) : ("**" ++ x ++ "**").data.getLast? = some '*' := by
  show (('*' :: '*' :: []) ++ (x.data ++ ('*' :: '*' :: []))).getLast? = some '*'
  rw [List.getLast?_append_of_ne_nil _ (by simp)]
  rw [List.getLast?_append_of_ne_nil _ (by simp)]
  rfl

/-- Emphasis-wrapped strings are nonempty. -/
theorem bold_ne_empty (x : String) : ("**" ++ x ++ "**") ≠ "" := by
  intro h
  have h2 : ("**" ++ x ++ "**").data.head? = some '*' := bold_head x
  rw [h] at h2
  simp at h2

/-- A string whose first character is not `'S'` or `'H'` is not a title. -/
theorem isTitleLine_eq_false_of_head {w : String} {c : Char}
    (hw : w.data.head? = some c) (hS : c ≠ 'S') (hH : c ≠ 'H') :
    isTitleLine w = false := by
  unfold isTitleLine
  have h1 : w ≠ "SOAP NOTE" := ne_of_head hw rfl hS
  have h2 : w ≠ "HISTORY & PHYSICAL (H&P)" := ne_of_head hw rfl hH
  simp [h1, h2]

/-- A string whose first character is none of the section-label initials is
not a section label. -/
theorem isSectionLine_eq_false_of_head {w : String} {c : Char}
    (hw : w.data.head? = some c) (hS : c ≠ 'S') (hO : c ≠ 'O') (hA : c ≠ 'A')
    (hP : c ≠ 'P') (hH : c ≠ 'H') : isSectionLine w = false := by
  unfold isSectionLine sectionLabels
  apply Bool.eq_false_iff.mpr
  intro htrue
  have hmem : w ∈ ["S – Subjective", "O – Objective", "A – Assessment", "P – Plan",
      "HISTORY", "PHYSICAL EXAM", "ASSESSMENT", "PLAN"] := by
    simpa [List.contains] using htrue
  simp only [List.mem_cons, List.mem_singleton, List.not_mem_nil, or_false] at hmem
  rcases hmem with h | h | h | h | h | h | h | h <;> rw [h] at hw <;>
    first
      | exact hS (Option.some.inj hw).symm
      | exact hO (Option.some.inj hw).symm
      | exact hA (Option.some.inj hw).symm
      | exact hP (Option.some.inj hw).symm
      | exact hH (Option.some.inj hw).symm

/-- A string whose last character is not `':'` does not end with a colon. -/
theorem endsColon_eq_false_of_getLast {w : String} {c : Char}
    (hw : w.data.getLast? = some c) (h : c ≠ ':') : endsColon w = false := by
  unfold endsColon
  rw [hw]
  simp [h]

/-- An emphasis-wrapped string is fixed by stripping. -/
theorem pstrip_bold (x : String) : pstrip ("**" ++ x ++ "**") = "**" ++ x ++ "**" := by
  apply pstrip_eq_self
  · intro c hc
    rw [bold_head] at hc
    rw [← Option.some.inj hc]
    decide
  · intro c hc
    rw [bold_getLast] at hc
    rw [← Option.some.inj hc]
    decide

/-- The per-line transform of `beautify_note` is idempotent: lines it has
already produced are not wrapped a second time. -/
theorem beautifyLine_idem (raw : String) :
    beautifyLine (beautifyLine raw) = beautifyLine raw := by
  by_cases h0 : pstrip raw = ""
  · rw [beautifyLine_eq raw, if_pos h0]
    decide
  · by_cases h1 : isTitleLine (pstrip raw) = true
    · rw [beautifyLine_eq raw, if_neg h0, if_pos h1]
      simp [isTitleLine] at h1
      rcases h1 with h | h <;> rw [h] <;> decide
    · by_cases h2 : isSectionLine (pstrip raw) = true
      · rw [beautifyLine_eq raw, if_neg h0, if_neg h1, if_pos h2]
        simp [isSectionLine, sectionLabels] at h2
        rcases h2 with h | h | h | h | h | h | h | h <;> rw [h] <;> decide
      · by_cases h3 : (endsColon (pstrip raw) && !startsBullet (pstrip raw)) = true
        · rw [beautifyLine_eq raw, if_neg h0, if_neg h1, if_neg h2, if_pos h3]
          rw [beautifyLine_eq, pstrip_bold]
          have ht := isTitleLine_eq_false_of_head (bold_head (pstrip raw))
            (by decide) (by decide)
          have hs := isSectionLine_eq_false_of_head (bold_head (pstrip raw))
            (by decide) (by decide) (by decide) (by decide) (by decide)
          have he := endsColon_eq_false_of_getLast (bold_getLast (pstrip raw))
            (by decide)
          rw [if_neg (bold_ne_empty _), if_neg (by simp [ht]), if_neg (by simp [hs]),
            if_neg (by simp [he])]
        · rw [beautifyLine_eq raw, if_neg h0, if_neg h1, if_neg h2, if_neg h3]
          rw [beautifyLine_eq, pstrip_idem]
          rw [if_neg h0, if_neg h1, if_neg h2, if_neg h3]

/-- The per-line transform introduces no newline. -/
theorem beautifyLine_no_nl {s : String} (h : '\n' ∉ s.data) :
    '\n' ∉ (beautifyLine s).data := by
  have hp : '\n' ∉ (pstrip s).data := by
    intro hm
    exact h (mem_of_mem_pstripL hm)
  rw [beautifyLine_eq]
  split_ifs with h0 h1 h2 h3
  · simp
  · show '\n' ∉ '#' :: ' ' :: (pstrip s).data
    intro hm
    rcases List.mem_cons.mp hm with hc | hm
    · exact absurd hc (by decide)
    rcases List.mem_cons.mp hm with hc | hm
    · exact absurd hc (by decide)
    · exact hp hm
  · show '\n' ∉ '#' :: '#' :: ' ' :: (pstrip s).data
    intro hm
    rcases List.mem_cons.mp hm with hc | hm
    · exact absurd hc (by decide)
    rcases List.mem_cons.mp hm with hc | hm
    · exact absurd hc (by decide)
    rcases List.mem_cons.mp hm with hc | hm
    · exact absurd hc (by decide)
    · exact hp hm
  · show '\n' ∉ '*' :: '*' :: ((pstrip s).data ++ ('*' :: '*' :: []))
    intro hm
    rcases List.mem_cons.mp hm with hc | hm
    · exact absurd hc (by decide)
    rcases List.mem_cons.mp hm with hc | hm
    · exact absurd hc (by decide)
    rcases List.mem_append.mp hm with hm | hc
    · exact hp hm
    · exact absurd hc (by decide)
  · exact hp

/-- The candidate cascade yields nothing when every candidate fails. -/
theorem tryCandidates_eq_none {attempt : String → Option String} :
    ∀ {cs : List String}, (∀ c ∈ cs, attempt c = none) →
      tryCandidates attempt cs = none := by
  intro cs
  induction cs with
  | nil => intro _; rfl
  | cons c rest ih =>
    intro h
    rw [tryCandidates, h c (List.mem_cons_self _ _)]
    exact ih fun x hx => h x (List.mem_cons_of_mem _ hx)

/-- The candidate cascade stops at the first success: with the first `K`
candidates failing and candidate `K+1` succeeding, it returns that
candidate's name and text, and invokes exactly the first `K+1` candidates. -/
theorem tryCandidates_first_success (attempt : String → Option String) :
    ∀ (cs : List String) (K : Nat) (hK : K < cs.length) (txt : String),
      (∀ i, ∀ hi : i < K, attempt (cs.get ⟨i, hi.trans hK⟩) = none) →
      attempt (cs.get ⟨K, hK⟩) = some txt →
      tryCandidates attempt cs = some (cs.get ⟨K, hK⟩, txt) ∧
      invokedCandidates attempt cs = cs.take (K + 1) := by
  intro cs
  induction cs with
  | nil => intro K hK; exact absurd hK (by simp)
  | cons c rest ih =>
    intro K hK txt hfail hsucc
    cases K with
    | zero =>
      have hc : attempt c = some txt := hsucc
      constructor
      · rw [tryCandidates, hc]
        rfl
      · rw [invokedCandidates, hc]
        rfl
    | succ K' =>
      have hc : attempt c = none := hfail 0 (Nat.succ_pos K')
      have hK' : K' < rest.length := Nat.lt_of_succ_lt_succ hK
      have ih' := ih K' hK' txt (fun i hi => hfail (i + 1) (Nat.succ_lt_succ hi)) hsucc
      constructor
      · rw [tryCandidates, hc]
        exact ih'.1
      · rw [invokedCandidates, hc, List.take_succ_cons, ih'.2]

/-- The SOAP branch of `fallback_note` is the fixed SOAP layout around the
History-of-Present-Illness value. -/
theorem fallback_soap_eq (t : String) :
    fallback_note t "SOAP" =
      soapFallbackPre ++ (if pstrip t ≠ "" then pstrip t else "Not mentioned.") ++
        soapFallbackPost := by
  have hpre : soapFallbackPre =
      "SOAP NOTE\n" ++ "Patient Name: Not mentioned.\n" ++ "DOB: Not mentioned.\n" ++
      "Clinician: Not mentioned.\n" ++ "Date: Not mentioned.\n" ++
      "Setting: Not mentioned.\n\n" ++ "S – Subjective\n" ++
      "• Chief Complaint: Not mentioned.\n" ++ "• History of Present Illness: " := by decide
  have hpost : soapFallbackPost =
      "\n" ++ "• Review of Systems (only items mentioned): Not mentioned.\n" ++
      "• Past Medical History: Not mentioned.\n" ++ "• Medications: Not mentioned.\n" ++
      "• Allergies: Not mentioned.\n" ++ "• Family History: Not mentioned.\n" ++
      "• Social History: Not mentioned.\n\n" ++ "O – Objective\n" ++
      "• Exam findings from transcript\n" ++
      "No physical exam performed; assessment based on verbal report.\n" ++
      "• Vitals if mentioned\n" ++ "Not mentioned.\n\n" ++ "A – Assessment\n" ++
      "• Not mentioned.\n\n" ++ "P – Plan\n" ++ "• Not mentioned.\n" := by decide
  rw [hpre, hpost]
  simp only [fallback_note, String.append_assoc, if_true, if_false]

/-- The H&P branch of `fallback_note` is the fixed H&P layout around the
History-of-Present-Illness value. -/
theorem fallback_hp_eq (t : String) :
    fallback_note t "H&P" =
      hpFallbackPre ++ (if pstrip t ≠ "" then pstrip t else "Not mentioned.") ++
        hpFallbackPost := by
  have hpre : hpFallbackPre =
      "HISTORY & PHYSICAL (H&P)\n\n" ++ "Patient Name: Not mentioned.\n" ++
      "DOB: Not mentioned.\n" ++ "Clinician: Not mentioned.\n" ++ "Date: Not mentioned.\n" ++
      "Setting: Not mentioned.\n\n" ++ "HISTORY\n" ++ "Chief Complaint: Not mentioned.\n" ++
      "History of Present Illness: " := by decide
  have hpost : hpFallbackPost =
      "\n" ++ "Past Medical History: Not mentioned.\n" ++
      "Past Surgical History: Not mentioned.\n" ++ "Medications: Not mentioned.\n" ++
      "Allergies: Not mentioned.\n" ++ "Family History: Not mentioned.\n" ++
      "Social History: Not mentioned.\n" ++ "Review of Systems: Not mentioned.\n\n" ++
      "PHYSICAL EXAM\n" ++ "• Not performed in transcript.\n\n" ++ "ASSESSMENT\n" ++
      "• Not mentioned.\n\n" ++ "PLAN\n" ++ "• Not mentioned.\n" := by decide
  rw [hpre, hpost]
  simp only [fallback_note]
  rw [if_neg (by decide : ¬("H&P" : String) = "SOAP")]
  simp only [String.append_assoc]

/-- Every format tag other than `"SOAP"` takes the H&P branch of
`fallback_note`. -/
theorem fallback_else {fmt : String} (h : fmt ≠ "SOAP") (t : String) :
    fallback_note t fmt = fallback_note t "H&P" := by
  simp only [fallback_note, if_neg h]
  rw [if_neg (by decide : ¬("H&P" : String) = "SOAP")]

/-- The deterministic fallback note is never empty. -/
theorem fallback_note_ne_empty (t fmt : String) : fallback_note t fmt ≠ "" := by
  by_cases h : fmt = "SOAP"
  · rw [h, fallback_soap_eq]
    intro he
    have hx : (soapFallbackPre ++ (if pstrip t ≠ "" then pstrip t else "Not mentioned.") ++
        soapFallbackPost).data.head? = some 'S' := rfl
    rw [he] at hx
    simp at hx
  · rw [fallback_else h, fallback_hp_eq]
    intro he
    have hx : (hpFallbackPre ++ (if pstrip t ≠ "" then pstrip t else "Not mentioned.") ++
        hpFallbackPost).data.head? = some 'H' := rfl
    rw [he] at hx
    simp at hx

/-- C7: `beautify_note` is idempotent with respect to the heading and
emphasis markers it introduces: every line of an already-beautified text is
a fixed point of the per-line transform, so re-applying the transform
double-wraps no line (in particular none it does not recognize as a title,
section label, or colon-terminated label). -/
theorem C7_beautify_idempotent_per_line (text L : String)
    (hL : L ∈ splitlines (beautify_note text)) : beautifyLine L = L := by
  unfold splitlines at hL
  rcases List.mem_map.mp hL with ⟨m, hm, rfl⟩
  have hm2 : m ∈ splitNlL (beautify_note text).data := mem_splitNlL_of_mem_splitlinesL hm
  have hfree : ∀ x ∈ (splitlines text).map beautifyLine, '\n' ∉ x.data := by
    intro x hx
    rcases List.mem_map.mp hx with ⟨y, hy, rfl⟩
    exact beautifyLine_no_nl (mem_splitlines_no_nl hy)
  have hj := mem_splitNl_joinSep _ hfree m hm2
  rcases hj with h0 | ⟨x, hx, hxd⟩
  · rw [h0]
    decide
  · rw [hxd]
    have hx2 : String.mk x.data = x := rfl
    rw [hx2]
    rcases List.mem_map.mp hx with ⟨y, _, rfl⟩
    exact beautifyLine_idem y

/-- Witness for C7 at a concrete already-beautified line. -/
theorem C7_witness : beautifyLine "**Date:**" = "**Date:**" :=
  C7_beautify_idempotent_per_line "Date:\nhello" "**Date:**" (by decide)

/-- A non-terminal response is skipped: polling continues on the remaining
responses with one more status check. -/
theorem pollSim_skip (r : TResponse) (rest : List TResponse)
    (h1 : r.status ≠ "completed") (h2 : r.status ≠ "error") :
    pollSim (r :: rest) = (pollSim rest).map (fun x => (x.1, x.2 + 1)) := by
  rw [pollSim, if_neg h1, if_neg h2]
  cases hp : pollSim rest with
  | none => rfl
  | some v => cases v with | mk o n => rfl

/-- An error response terminates polling immediately after any run of
non-terminal responses, regardless of what follows. -/
theorem pollSim_error (pre : List TResponse) (post : List TResponse) (e : TResponse)
    (hpre : ∀ r ∈ pre, r.status ≠ "completed" ∧ r.status ≠ "error")
    (he : e.status = "error") :
    pollSim (pre ++ e :: post) = some (PollOutcome.failed e.error, pre.length + 1) := by
  induction pre with
  | nil =>
    rw [List.nil_append, pollSim, if_neg (by rw [he]; decide), if_pos he]
    rfl
  | cons r pre' ih =>
    have hr := hpre r (List.mem_cons_self _ _)
    rw [List.cons_append, pollSim_skip r _ hr.1 hr.2,
      ih (fun x hx => hpre x (List.mem_cons_of_mem _ hx))]
    rfl

/-- Falsiness of a present optional string is emptiness of the string. -/
theorem pyFalsy_some (s : String) : pyFalsy (some s) = (s == "") := by
  simp [pyFalsy, pyTruthy, bne, Bool.not_not]

/-- Characterization of the pipeline's note for a completed job with
non-empty transcript text: the generated note when the key is configured and
generation yields non-empty text, and the deterministic fallback otherwise. -/
theorem pipeline_note_eq (gk : Option String) (probe : String → Bool)
    (gen : String → String → Option String) (result : TResponse) (fmt t : String)
    (htext : result.text = some t) (hne : t ≠ "") :
    pipeline_note gk probe gen result fmt =
      if pyTruthy gk = true then
        if (generate_note gk probe gen t fmt).note ≠ ""
          then some (generate_note gk probe gen t fmt).note
          else some (fallback_note t fmt)
      else some (fallback_note t fmt) := by
  have hft : result.text.getD "" = t := by rw [htext]; rfl
  have hfb : ¬(pyFalsy (some (fallback_note t fmt)) = true) := by
    rw [pyFalsy_some]
    simp [fallback_note_ne_empty t fmt]
  by_cases hk : pyTruthy gk = true
  · by_cases hgn : (generate_note gk probe gen t fmt).note = ""
    · simp only [pipeline_note, hft]
      rw [if_pos (And.intro hk hne), hgn]
      rw [if_pos (And.intro hk (by decide : pyFalsy (some "") = true))]
      rw [if_pos hne]
      rw [if_neg (by decide : ¬(("" : String) ≠ ""))]
      rw [if_neg hfb]
      rw [if_pos hk]
      rw [if_neg (by decide : ¬(("" : String) ≠ ""))]
    · simp only [pipeline_note, hft]
      rw [if_pos (And.intro hk hne)]
      have hgf : ¬(pyFalsy (some (generate_note gk probe gen t fmt).note) = true) := by
        rw [pyFalsy_some]
        simp [hgn]
      rw [if_neg (show ¬(pyTruthy gk = true ∧
        pyFalsy (some (generate_note gk probe gen t fmt).note) = true) from
        fun hc => hgf hc.2)]
      rw [if_neg hgf]
      rw [if_pos hk, if_pos hgn]
  · simp only [pipeline_note, hft]
    rw [if_neg (show ¬(pyTruthy gk = true ∧ t ≠ "") from fun hc => hk hc.1)]
    rw [if_neg (show ¬(pyTruthy gk = true ∧ pyFalsy (none : Option String) = true) from
      fun hc => hk hc.1)]
    rw [if_pos (by decide : pyFalsy (none : Option String) = true)]
    rw [if_pos hne]
    rw [if_neg hk]

/-- C1: for every job observed completed with existing (non-empty) transcript
text, the pipeline always produces a note: it is the generated note or the
deterministic template fallback, never empty and never an abort; with no
generation credential configured it is exactly the fallback builder's output
for that text and format. -/
theorem C1_note_always_produced (gk : Option String) (probe : String → Bool)
    (gen : String → String → Option String) (result : TResponse) (fmt t : String)
    (_hst : result.status = "completed") (htext : result.text = some t) (hne : t ≠ "") :
    (∃ n, pipeline_note gk probe gen result fmt = some n ∧ n ≠ "" ∧
      (n = (generate_note gk probe gen t fmt).note ∨ n = fallback_note t fmt)) ∧
    (pyTruthy gk = false →
      pipeline_note gk probe gen result fmt = some (fallback_note t fmt)) := by
  have he := pipeline_note_eq gk probe gen result fmt t htext hne
  constructor
  · by_cases hk : pyTruthy gk = true
    · by_cases hgn : (generate_note gk probe gen t fmt).note = ""
      · refine ⟨fallback_note t fmt, ?_, fallback_note_ne_empty t fmt, Or.inr rfl⟩
        rw [he, if_pos hk, if_neg (fun hc => hc hgn)]
      · refine ⟨(generate_note gk probe gen t fmt).note, ?_, hgn, Or.inl rfl⟩
        rw [he, if_pos hk, if_pos hgn]
    · refine ⟨fallback_note t fmt, ?_, fallback_note_ne_empty t fmt, Or.inr rfl⟩
      rw [he, if_neg hk]
  · intro hk
    rw [he, if_neg (by simp [hk])]

/-- Witness for C1: a completed job with utterances `[]`, text
`"Patient denies fever."` and no generation credential yields exactly the
template fallback for that text and the requested format. -/
theorem C1_witness :
    pipeline_note none (fun _ => true) (fun _ _ => none)
      { status := "completed", text := some "Patient denies fever.", error := none,
        utterances := some [] } "SOAP"
      = some (fallback_note "Patient denies fever." "SOAP") :=
  (C1_note_always_produced none (fun _ => true) (fun _ _ => none)
    { status := "completed", text := some "Patient denies fever.", error := none,
      utterances := some [] } "SOAP" "Patient denies fever." rfl rfl (by decide)).2 rfl

/-- C2 counterexample: the transcript `" "` is non-empty, yet the
History-of-Present-Illness field of the fallback note does not receive it
verbatim — the output coincides with the empty-transcript output and the
field reads `"Not mentioned."` (the code strips the text first). -/
theorem C2_counterexample :
    (" " : String) ≠ "" ∧
    fallback_note " " "SOAP" = fallback_note "" "SOAP" ∧
    (splitlines (fallback_note " " "SOAP")).contains
      "• History of Present Illness: Not mentioned." = true :=
  ⟨by decide, by decide, by decide⟩

/-- C2 amended: `fallback_note` deterministically produces the fixed section
layout of the chosen format, whose History-of-Present-Illness field receives
the whitespace-stripped transcript text when that is non-empty (else
`"Not mentioned."`), every other field being the literal `"Not mentioned."`;
the concrete SOAP examples of the claim hold verbatim. -/
theorem C2_fallback_layout :
    (∀ t : String,
      fallback_note t "SOAP" =
        soapFallbackPre ++ (if pstrip t ≠ "" then pstrip t else "Not mentioned.") ++
          soapFallbackPost ∧
      fallback_note t "H&P" =
        hpFallbackPre ++ (if pstrip t ≠ "" then pstrip t else "Not mentioned.") ++
          hpFallbackPost) ∧
    splitlines (fallback_note "Patient reports cough for 3 days" "SOAP") =
      ["SOAP NOTE", "Patient Name: Not mentioned.", "DOB: Not mentioned.",
       "Clinician: Not mentioned.", "Date: Not mentioned.", "Setting: Not mentioned.", "",
       "S – Subjective", "• Chief Complaint: Not mentioned.",
       "• History of Present Illness: Patient reports cough for 3 days",
       "• Review of Systems (only items mentioned): Not mentioned.",
       "• Past Medical History: Not mentioned.", "• Medications: Not mentioned.",
       "• Allergies: Not mentioned.", "• Family History: Not mentioned.",
       "• Social History: Not mentioned.", "", "O – Objective",
       "• Exam findings from transcript",
       "No physical exam performed; assessment based on verbal report.",
       "• Vitals if mentioned", "Not mentioned.", "", "A – Assessment",
       "• Not mentioned.", "", "P – Plan", "• Not mentioned."] ∧
    (splitlines (fallback_note "" "SOAP")).contains
      "• History of Present Illness: Not mentioned." = true :=
  ⟨fun t => ⟨fallback_soap_eq t, fallback_hp_eq t⟩, by decide, by decide⟩

/-- C3: the candidate cascade with the first `K` candidates failing (at probe
or at generation) and candidate `K+1` succeeding returns candidate `K+1`'s
text and records its identifier, invoking no candidate after `K+1`; a
cascade success determines `generate_note`'s result accordingly. -/
theorem C3_first_success :
    (∀ (attempt : String → Option String) (cs : List String) (K : Nat)
        (hK : K < cs.length) (txt : String),
      (∀ i, ∀ hi : i < K, attempt (cs.get ⟨i, hi.trans hK⟩) = none) →
      attempt (cs.get ⟨K, hK⟩) = some txt →
      tryCandidates attempt cs = some (cs.get ⟨K, hK⟩, txt) ∧
      invokedCandidates attempt cs = cs.take (K + 1)) ∧
    (∀ (probe : String → Bool) (gen : String → String → Option String) (prompt n : String),
      probe n = false ∨ gen n prompt = none → attemptOf probe gen prompt n = none) ∧
    (∀ (gk : Option String) (probe : String → Bool) (gen : String → String → Option String)
        (t fmt name out : String),
      pyTruthy gk = true →
      tryCandidates (attemptOf probe gen (buildPrompt t fmt)) candidates = some (name, out) →
      generate_note gk probe gen t fmt = { note := out, model := some name }) := by
  refine ⟨tryCandidates_first_success, ?_, ?_⟩
  · intro probe gen prompt n h
    rcases h with h | h
    · simp [attemptOf, h]
    · by_cases hp : probe n = true
      · simp [attemptOf, hp, h]
      · simp [attemptOf, hp]
  · intro gk probe gen t fmt name out hk htry
    simp only [generate_note]
    rw [if_pos hk, htry]

/-- Witness for C3: with the first candidate failing and the second
succeeding, the cascade returns the second candidate's output and invokes
only the first two candidates. -/
theorem C3_witness :
    tryCandidates (fun n => if n = "b" then some "T" else none) ["a", "b", "c"]
      = some ("b", "T") ∧
    invokedCandidates (fun n => if n = "b" then some "T" else none) ["a", "b", "c"]
      = ["a", "b"] :=
  C3_first_success.1 (fun n => if n = "b" then some "T" else none) ["a", "b", "c"] 1
    (by decide) "T"
    (fun i hi => by
      match i, hi with
      | 0, _ => rfl)
    rfl

/-- C4: when no generation credential is configured, or when every candidate
model fails, `generate_note` returns the empty string (and records no model)
for every transcript text and format — by construction it raises nothing. -/
theorem C4_empty_on_exhaustion (gk : Option String) (probe : String → Bool)
    (gen : String → String → Option String) (t fmt : String) :
    (pyTruthy gk = false →
      generate_note gk probe gen t fmt = { note := "", model := none }) ∧
    ((∀ c ∈ candidates, attemptOf probe gen (buildPrompt t fmt) c = none) →
      generate_note gk probe gen t fmt = { note := "", model := none }) := by
  constructor
  · intro h
    simp only [generate_note]
    rw [if_neg (by simp [h])]
  · intro h
    by_cases hk : pyTruthy gk = true
    · simp only [generate_note]
      rw [if_pos hk, tryCandidates_eq_none h]
    · simp only [generate_note]
      rw [if_neg hk]

/-- Witness for C4: no credential (and also an all-failing oracle) yields the
empty result. -/
theorem C4_witness :
    generate_note none (fun _ => false) (fun _ _ => none) "Patient denies fever." "SOAP"
      = { note := "", model := none } :=
  (C4_empty_on_exhaustion none (fun _ => false) (fun _ _ => none)
    "Patient denies fever." "SOAP").1 rfl

/-- C5: the poll loop treats every status other than `completed` or `error`
(including unrecognized values) as keep-waiting; the sequence
`[queued, processing, processing, completed]` takes exactly 4 status checks
and returns the 4th response's payload; an `error` response terminates
polling immediately with the service-provided detail regardless of remaining
responses. -/
theorem C5_poll_policy :
    (∀ (r : TResponse) (rest : List TResponse),
      r.status ≠ "completed" → r.status ≠ "error" →
      pollSim (r :: rest) = (pollSim rest).map (fun x => (x.1, x.2 + 1))) ∧
    (∀ (q p1 p2 c : TResponse),
      q.status = "queued" → p1.status = "processing" → p2.status = "processing" →
      c.status = "completed" →
      pollSim [q, p1, p2, c] = some (PollOutcome.completed c, 4)) ∧
    (∀ (pre post : List TResponse) (e : TResponse),
      (∀ r ∈ pre, r.status ≠ "completed" ∧ r.status ≠ "error") →
      e.status = "error" →
      pollSim (pre ++ e :: post) = some (PollOutcome.failed e.error, pre.length + 1)) := by
  refine ⟨pollSim_skip, ?_, pollSim_error⟩
  intro q p1 p2 c h1 h2 h3 h4
  rw [pollSim_skip q _ (by simp [h1]) (by simp [h1])]
  rw [pollSim_skip p1 _ (by simp [h2]) (by simp [h2])]
  rw [pollSim_skip p2 _ (by simp [h3]) (by simp [h3])]
  rw [show pollSim [c] = some (PollOutcome.completed c, 1) from by
    rw [pollSim, if_pos h4]]
  rfl

/-- Witness for C5 on a concrete simulated response sequence. -/
theorem C5_witness :
    pollSim
      [{ status := "queued", text := none, error := none, utterances := none },
       { status := "processing", text := none, error := none, utterances := none },
       { status := "processing", text := none, error := none, utterances := none },
       { status := "completed", text := some "T", error := none, utterances := some [] }]
      = some (PollOutcome.completed
          { status := "completed", text := some "T", error := none,
            utterances := some [] }, 4) :=
  C5_poll_policy.2.1
    { status := "queued", text := none, error := none, utterances := none }
    { status := "processing", text := none, error := none, utterances := none }
    { status := "processing", text := none, error := none, utterances := none }
    { status := "completed", text := some "T", error := none, utterances := some [] }
    rfl rfl rfl rfl

/-- C6 counterexample: the line `"  a"` is not recognized as a title, section
label, or colon-terminated label, yet it does not pass through unchanged —
`beautify_note` strips its surrounding whitespace. -/
theorem C6_counterexample :
    beautify_note "  a" ≠ "  a" ∧ beautify_note "  a" = "a" :=
  ⟨by decide, by decide⟩

/-- C6 amended: `beautify_note` is a line-local single-pass transform
(`splitlines`, per-line transform, rejoin); whitespace-only lines become
empty lines; every line is first stripped of surrounding whitespace, after
which an unrecognized line passes through as exactly its stripped content
(unchanged when it had no surrounding whitespace), and recognized lines are
only wrapped in heading or emphasis markers around that stripped content. -/
theorem C6_line_local (text : String) :
    beautify_note text = joinSep "\n\n" ((splitlines text).map beautifyLine) ∧
    ∀ s, s ∈ splitlines text →
      (pstrip s = "" → beautifyLine s = "") ∧
      (beautifyLine s = pstrip s ∨ beautifyLine s = "# " ++ pstrip s ∨
        beautifyLine s = "## " ++ pstrip s ∨
        beautifyLine s = "**" ++ pstrip s ++ "**") ∧
      (pstrip s = s → isTitleLine s = false → isSectionLine s = false →
        (endsColon s && !startsBullet s) = false → beautifyLine s = s) := by
  refine ⟨rfl, ?_⟩
  intro s _
  refine ⟨?_, ?_, ?_⟩
  · intro h
    rw [beautifyLine_eq, if_pos h]
  · rw [beautifyLine_eq]
    split_ifs with h0 h1 h2 h3
    · exact Or.inl h0.symm
    · exact Or.inr (Or.inl rfl)
    · exact Or.inr (Or.inr (Or.inl rfl))
    · exact Or.inr (Or.inr (Or.inr rfl))
    · exact Or.inl rfl
  · intro he h1 h2 h3
    by_cases h0 : pstrip s = ""
    · rw [beautifyLine_eq, if_pos h0, ← he]
      exact h0.symm
    · rw [beautifyLine_eq, he]
      rw [if_neg (he ▸ h0 : ¬s = "")]
      rw [if_neg (by simp [h1])]
      rw [if_neg (by simp [h2])]
      rw [if_neg (by simp [h3])]

/-- Witness for C6 at a concrete text: a whitespace-only line becomes empty,
and an already-stripped unrecognized line passes through unchanged. -/
theorem C6_witness :
    beautifyLine " " = "" ∧ beautifyLine "hello" = "hello" :=
  ⟨((C6_line_local " \nhello").2 " " (by decide)).1 (by decide),
   ((C6_line_local " \nhello").2 "hello" (by decide)).2.2 (by decide) (by decide)
     (by decide) (by decide)⟩

/-- C8: `format_utterances` never fails (it is total by construction) and
returns one canonical utterance per input record, defaulting a missing
speaker to the sentinel `"Unknown"`; composed with the orchestrator's
synthesis step it yields exactly 1 utterance when synthesized from flat text
and 0 when both inputs are empty. -/
theorem C8_formatter_total (utt : Option (List RawRecord)) (tx : Option String) :
    (format_utterances utt).length = (utt.getD []).length ∧
    (format_utterances utt).map Utterance.speaker
      = (utt.getD []).map (fun u => u.speaker.getD "Unknown") ∧
    ((utt = none ∨ utt = some []) → pyTruthy tx = true →
      (format_utterances (synth_utterances utt tx)).length = 1) ∧
    ((utt = none ∨ utt = some []) → pyTruthy tx = false →
      (format_utterances (synth_utterances utt tx)).length = 0) := by
  refine ⟨by simp [format_utterances], by simp [format_utterances], ?_, ?_⟩
  · intro h ht
    rw [synth_utterances, if_pos ⟨h, ht⟩]
    rfl
  · intro h ht
    rw [synth_utterances, if_neg (fun hc => by rw [ht] at hc; exact absurd hc.2 (by simp))]
    rcases h with h | h <;> rw [h] <;> rfl

/-- Witness for C8: empty diarization with flat text synthesizes exactly one
utterance; empty diarization with no text yields none. -/
theorem C8_witness :
    (format_utterances (synth_utterances (some []) (some "Patient denies fever."))).length
        = 1 ∧
    (format_utterances (synth_utterances none none)).length = 0 :=
  ⟨(C8_formatter_total (some []) (some "Patient denies fever.")).2.2.1 (Or.inr rfl) rfl,
   (C8_formatter_total none none).2.2.2 (Or.inl rfl) rfl⟩

/-- C9: millisecond-to-second conversion in `format_utterances` is exact
division by 1000 — 1500 milliseconds is exactly 1.5 seconds, and a missing
or non-numeric field is exactly 0 — applied to both the start and end fields
of each record. -/
theorem C9_exact_conversion :
    msToSeconds (some (Sum.inl 1500)) = 3 / 2 ∧
    msToSeconds none = 0 ∧
    (∀ v : String, msToSeconds (some (Sum.inr v)) = 0) ∧
    (∀ u : RawRecord, format_utterances (some [u]) =
      [{ speaker := u.speaker.getD "Unknown", text := u.text.getD "",
         start := msToSeconds u.start, end_ := msToSeconds u.end_ }]) := by
  refine ⟨?_, rfl, fun v => rfl, fun u => rfl⟩
  rw [msToSeconds]
  norm_num

/-- C10: format dispatch is total with H&P as the default: every format tag
other than the exact string `"SOAP"` (such as `"HP"` or `"H&P"`) renders the
History & Physical prompt in `generate_note` and the History & Physical
layout in `fallback_note`; both functions are total, so no format value can
make either fail. -/
theorem C10_dispatch_default_hp (t fmt : String) (h : fmt ≠ "SOAP") :
    buildPrompt t fmt = hpPromptPre ++ t ++ "\n\n" ∧
    buildPrompt t fmt = buildPrompt t "H&P" ∧
    fallback_note t fmt = fallback_note t "H&P" ∧
    ∀ (gk : Option String) (probe : String → Bool)
      (gen : String → String → Option String),
      generate_note gk probe gen t fmt = generate_note gk probe gen t "H&P" := by
  have ha : buildPrompt t fmt = hpPromptPre ++ t ++ "\n\n" := by
    simp only [buildPrompt]
    rw [if_neg h]
  have hb : buildPrompt t "H&P" = hpPromptPre ++ t ++ "\n\n" := by
    simp only [buildPrompt]
    rw [if_neg (by decide : ¬("H&P" : String) = "SOAP")]
  refine ⟨ha, by rw [ha, hb], fallback_else h t, ?_⟩
  intro gk probe gen
  simp only [generate_note]
  rw [ha, hb]

/-- Witness for C10 at the concrete unrecognized tag `"HP"`. -/
theorem C10_witness :
    buildPrompt "x" "HP" = hpPromptPre ++ "x" ++ "\n\n" ∧
    fallback_note "x" "HP" = fallback_note "x" "H&P" :=
  ⟨(C10_dispatch_default_hp "x" "HP" (by decide)).1,
   (C10_dispatch_default_hp "x" "HP" (by decide)).2.2.1⟩

example : pstrip "  a b " = "a b" := by decide
example : splitlines "a\n\nb\n" = ["a", "", "b"] := by decide
example : splitlines "" = [] := by decide
example : beautifyLine "Date:" = "**Date:**" := by decide
example : beautifyLine " SOAP NOTE " = "# SOAP NOTE" := by decide
example : beautify_note "  a" = "a" := by decide
example : (fallback_note " " "SOAP") = (fallback_note "" "SOAP") := by decide
example : (splitlines (fallback_note "hi" "SOAP")).contains "• History of Present Illness: hi" := by decide
